import Mathlib

/-!
Shallow embedding of the live code of `src/main.py` (the attendance API), covering
the parts the frozen claims are about: the bcrypt helpers `hash_password` and
`verify_password` (lines 428-434), the `signup` endpoint (lines 448-465), the
`login` endpoint (lines 468-476), the `get_users` endpoint (lines 479-483) and the
`userSearch` endpoint (lines 533-546), plus the Token Issuer of spec section 4.2,
which has no implementation anywhere in `src/` and is therefore modelled from the
spec.

The MongoDB `users` collection is embedded as a `List User` passed explicitly;
`find_one {email}` is `List.find?` on the email field and `insert_one` appends.
The external bcrypt library (imported as `bcrypt` in the source) is embedded at
the level of the bcrypt algorithm: `hashpw` derives a key from the salt and the
password bytes truncated to 72 bytes (the bcrypt algorithm ignores password
bytes beyond the 72nd, as documented by the library), and `checkpw` re-derives
and compares.  The key derivation itself is modelled as an ideal (collision-free)
function of the truncated bytes and the salt, which is the standard idealisation
of a cryptographic hash.
-/

/-- The UTF-8 encoding of a string as a list of byte values; embeds Python's
`password.encode('utf-8')`. -/
def utf8Bytes (s : String) : List Nat :=
  (s.data.flatMap String.utf8EncodeChar).map (fun b => b.toNat)

/-- The bcrypt algorithm derives its key from at most 72 password bytes;
bytes beyond the 72nd are ignored. -/
def bcryptKeyLimit : Nat := 72

/-- A bcrypt digest: the self-contained output of `bcrypt.hashpw`, carrying the
salt and the derived key.  The key derivation (EksBlowfish) is idealised as the
injective function that records the truncated password bytes. -/
structure BcryptDigest where
  salt : Nat
  key : List Nat
deriving DecidableEq, Repr

/-- `bcrypt.hashpw(passwordBytes, salt)`: derives the key from the salt and the
first 72 password bytes. -/
def bcryptHashpw (passwordBytes : List Nat) (salt : Nat) : BcryptDigest :=
  { salt := salt, key := passwordBytes.take bcryptKeyLimit }

/-- `bcrypt.checkpw(passwordBytes, digest)`: re-runs `hashpw` with the salt
embedded in the digest and compares the result with the digest. -/
def bcryptCheckpw (passwordBytes : List Nat) (digest : BcryptDigest) : Bool :=
  decide (bcryptHashpw passwordBytes digest.salt = digest)

/-- `hash_password` (src/main.py lines 428-430):
`bcrypt.hashpw(password.encode('utf-8'), bcrypt.gensalt()).decode()`.
The fresh salt produced by `bcrypt.gensalt()` is passed explicitly. -/
def hash_password (password : String) (salt : Nat) : BcryptDigest :=
  bcryptHashpw (utf8Bytes password) salt

/-- `verify_password` (src/main.py lines 432-434):
`bcrypt.checkpw(password.encode('utf-8'), hashed.encode())`. -/
def verify_password (password : String) (hashed : BcryptDigest) : Bool :=
  bcryptCheckpw (utf8Bytes password) hashed

/-- A stored user document, as inserted by `signup`:
`{"name": name, "email": email, "password": hashed_password}`. -/
structure User where
  name : String
  email : String
  password : BcryptDigest
deriving DecidableEq, Repr

/-- `fastapi.HTTPException(status_code, detail)`. -/
structure HTTPException where
  status_code : Nat
  detail : String
deriving DecidableEq, Repr

/-- `str(e)` for a FastAPI/Starlette `HTTPException`, whose `__str__` is
`f"{self.status_code}: {self.detail}"`. -/
def httpExceptionToString (e : HTTPException) : String :=
  toString e.status_code ++ ": " ++ e.detail

/-- `users_collection.find_one({"email": email})`. -/
def findOneByEmail (store : List User) (email : String) : Option User :=
  store.find? (fun u => u.email == email)

/-- The `"user"` sub-object of a successful signup response:
`{"name": name, "email": email}`. -/
structure SignupUser where
  name : String
  email : String
deriving DecidableEq, Repr

/-- A successful signup response:
`{"status": ..., "message": ..., "user": {...}}`. -/
structure SignupSuccess where
  status : String
  message : String
  user : SignupUser
deriving DecidableEq, Repr

/-- The keys of the dict literal returned by a successful `signup`
(src/main.py lines 459-463). -/
def signupSuccessKeys : List String := ["status", "message", "user"]

/-- The keys of the `"user"` sub-dict of a successful `signup` response
(src/main.py line 462). -/
def signupUserKeys : List String := ["name", "email"]

/-- The body of `signup`'s `try` block (src/main.py lines 452-463): check for an
existing user with the same email (raising `HTTPException(400)` if found), hash
the password, insert the new user document, and return the success dict.
Returns the store after the call together with the outcome. -/
def signupTryBody (store : List User) (name email password : String) (salt : Nat) :
    List User × Except HTTPException SignupSuccess :=
  match findOneByEmail store email with
  | some _ => (store, .error { status_code := 400, detail := "User already exists" })
  | none =>
      let hashed := hash_password password salt
      let newUser : User := { name := name, email := email, password := hashed }
      (store ++ [newUser],
        .ok { status := "success", message := "User registered successfully!",
              user := { name := name, email := email } })

/-- `signup` (src/main.py lines 448-465).  The `try` body is wrapped in
`except Exception as e: raise HTTPException(status_code=500, detail=f"Signup error: {str(e)}")`;
since FastAPI's `HTTPException` is a subclass of `Exception`, this handler also
catches the `HTTPException(400)` raised by the duplicate check and re-raises it
with status 500. -/
def signup (store : List User) (name email password : String) (salt : Nat) :
    List User × Except HTTPException SignupSuccess :=
  match signupTryBody store name email password salt with
  | (store2, .error e) =>
      (store2, .error { status_code := 500,
                        detail := "Signup error: " ++ httpExceptionToString e })
  | (store2, .ok r) => (store2, .ok r)

/-- `login` (src/main.py lines 468-476): look up the email (404 "User not found"
if absent), verify the password against the stored hash (401 "Invalid password"
on mismatch), and return the welcome message.  `login` has no `try`/`except`,
so its `HTTPException`s reach the HTTP boundary unchanged. -/
def login (store : List User) (email password : String) : Except HTTPException String :=
  match findOneByEmail store email with
  | none => .error { status_code := 404, detail := "User not found" }
  | some user =>
      if verify_password password user.password then
        .ok ("Welcome " ++ user.name ++ "! Login successful.")
      else
        .error { status_code := 401, detail := "Invalid password" }

/-- A user document as projected by `{"_id": 0, "password": 0}`: only the
`name` and `email` fields remain. -/
structure PublicUser where
  name : String
  email : String
deriving DecidableEq, Repr

/-- The keys of a projected user document as returned by `get_users` and
`userSearch`: the projection `{"_id": 0, "password": 0}` removes `_id` and
`password` from the stored `{name, email, password}` (+ `_id`) document. -/
def publicUserKeys : List String := ["name", "email"]

/-- Applies the projection `{"_id": 0, "password": 0}` to a stored user. -/
def projectPublic (u : User) : PublicUser :=
  { name := u.name, email := u.email }

/-- The response shape of `get_users` and `userSearch`:
`{"total_users": ..., "users": [...]}`. -/
structure UsersResponse where
  total_users : Nat
  users : List PublicUser
deriving DecidableEq, Repr

/-- `get_users` (src/main.py lines 479-483):
`list(users_collection.find({}, {"_id": 0, "password": 0}))` and
`{"total_users": len(users), "users": users}`. -/
def get_users (store : List User) : UsersResponse :=
  let users := store.map projectPublic
  { total_users := users.length, users := users }

/-- Bool-valued substring test on character lists. -/
def hasSub (needle : List Char) : List Char → Bool
  | [] => needle.isEmpty
  | c :: rest => needle.isPrefixOf (c :: rest) || hasSub needle rest

/-- The Mongo filter `{"name": {"$regex": q, "$options": "i"}}` of `userSearch`,
embedded for literal (metacharacter-free) patterns as case-insensitive substring
containment, using ASCII case folding. -/
def nameMatches (q : String) (n : String) : Bool :=
  hasSub (q.data.map Char.toLower) (n.data.map Char.toLower)

/-- The body of `userSearch`'s `try` block (src/main.py lines 538-544): filter
the users by case-insensitive name match, drop `_id` and `password`, raise
`HTTPException(404)` when no user matches, and return the count and the list. -/
def userSearchTryBody (store : List User) (q : String) :
    Except HTTPException UsersResponse :=
  let users := (store.filter (fun u => nameMatches q u.name)).map projectPublic
  if users.isEmpty then
    .error { status_code := 404,
             detail := "No users found with name containing \x27" ++ q ++ "\x27" }
  else
    .ok { total_users := users.length, users := users }

/-- `userSearch` (src/main.py lines 533-546).  As in `signup`, the blanket
`except Exception` handler catches the `HTTPException(404)` raised inside the
`try` block and re-raises it as
`HTTPException(status_code=500, detail=f"Search error: {str(e)}")`. -/
def userSearch (store : List User) (q : String) : Except HTTPException UsersResponse :=
  match userSearchTryBody store q with
  | .error e =>
      .error { status_code := 500, detail := "Search error: " ++ httpExceptionToString e }
  | .ok r => .ok r

/-- Modelled from the spec: no Token Issuer exists in `src/main.py` (the live
code issues no tokens at all); spec section 4.2 describes it.  A token embeds
the `subject`, `issuedAt` and an absolute `expiresAt` timestamp, and carries a
signature over its contents made with the process-wide secret key. -/
structure Token where
  subject : String
  issuedAt : Nat
  expiresAt : Nat
  sig : Nat
deriving DecidableEq, Repr

/-- Modelled from the spec: the error kinds of `validate`
(spec section 4.2: `{Expired, BadSignature, Malformed}`; the `Malformed` kind
concerns undecodable byte strings, which do not arise for the structured
`Token` values of this embedding). -/
inductive TokenError where
  | tokenExpired
  | badSignature
deriving DecidableEq, Repr

/-- Modelled from the spec: signing with the process-wide secret key, idealised
as an injective MAC (an unforgeable deterministic function of the secret and the
signed fields). -/
def signToken (secret : Nat) (subject : String) (expiresAt : Nat) : Nat :=
  Nat.pair secret (Nat.pair ((utf8Bytes subject).foldl (fun a b => a * 256 + b + 1) 0) expiresAt)

/-- Modelled from the spec: `issue(subject, ttl)` produces a signed token
embedding `subject` and the absolute expiry `now + ttl` (spec section 4.2). -/
def issue (secret : Nat) (subject : String) (ttl now : Nat) : Token :=
  { subject := subject, issuedAt := now, expiresAt := now + ttl,
    sig := signToken secret subject (now + ttl) }

/-- Modelled from the spec: `validate(token)` reproduces the signature check and
the expiry comparison, returning the subject of a valid token and failing with
`BadSignature` or `TokenExpired` otherwise (spec sections 4.2 and 3: a token is
valid only before `expiresAt`). -/
def validate (secret : Nat) (tok : Token) (now : Nat) : Except TokenError String :=
  if tok.sig ≠ signToken secret tok.subject tok.expiresAt then
    .error .badSignature
  else if tok.expiresAt ≤ now then
    .error .tokenExpired
  else
    .ok tok.subject

/-! ### Theorems about the claims -/

/-- C1: the claim says a duplicate-email signup fails with `DuplicateUser` and
maps to a 400 outcome at the HTTP boundary.  The duplicate check does fire
(the `try` body raises `HTTPException(400, "User already exists")`), but the
blanket `except Exception` handler catches that very exception and re-raises it
with status 500, so the boundary outcome is 500, not 400.  This theorem
evaluates `signup` at a store already containing the email `ana@x.com`. -/
theorem signup_duplicate_email_yields_500 :
    signupTryBody [{ name := "Ana", email := "ana@x.com", password := hash_password "secret" 0 }]
        "Bob" "ana@x.com" "pw" 1 =
      ([{ name := "Ana", email := "ana@x.com", password := hash_password "secret" 0 }],
       .error { status_code := 400, detail := "User already exists" }) ∧
    signup [{ name := "Ana", email := "ana@x.com", password := hash_password "secret" 0 }]
        "Bob" "ana@x.com" "pw" 1 =
      ([{ name := "Ana", email := "ana@x.com", password := hash_password "secret" 0 }],
       .error { status_code := 500, detail := "Signup error: 400: User already exists" }) := by
  constructor <;> rfl

/-- C2 counterexample: a successful `signup` on a fresh email returns only
`{status, message, user: {name, email}}`: the response carries no token, no
address and no city (the live code issues no tokens and does not even take
address or city parameters), so it is false that the result contains a token
whose subject equals the supplied email. -/
theorem signup_success_response_lacks_token :
    (signup [] "Ana" "ana@x.com" "secret" 0).2 =
      .ok { status := "success", message := "User registered successfully!",
            user := { name := "Ana", email := "ana@x.com" } } ∧
    "token" ∉ signupSuccessKeys ∧ "address" ∉ signupSuccessKeys ∧
    "city" ∉ signupSuccessKeys ∧ "token" ∉ signupUserKeys ∧
    "address" ∉ signupUserKeys ∧ "city" ∉ signupUserKeys := by
  refine ⟨rfl, ?_, ?_, ?_, ?_, ?_, ?_⟩ <;> decide

/-- C2 amended: for every store state in which the supplied email is absent,
`signup` succeeds, appends exactly the new user record (with the hashed
password), and returns status `"success"`, the registration message, and a user
object with the supplied name and email — no token, address or city. -/
theorem signup_fresh_email_succeeds (store : List User) (name email password : String)
    (salt : Nat) (h : findOneByEmail store email = none) :
    signup store name email password salt =
      (store ++ [{ name := name, email := email, password := hash_password password salt }],
       .ok { status := "success", message := "User registered successfully!",
             user := { name := name, email := email } }) := by
  simp [signup, signupTryBody, h]

/-- Witness for C2's amended theorem at the concrete scenario of spec section 8. -/
theorem signup_fresh_email_succeeds_witness :
    signup [] "Ana" "ana@x.com" "secret" 0 =
      ([{ name := "Ana", email := "ana@x.com", password := hash_password "secret" 0 }],
       .ok { status := "success", message := "User registered successfully!",
             user := { name := "Ana", email := "ana@x.com" } }) :=
  signup_fresh_email_succeeds [] "Ana" "ana@x.com" "secret" 0 rfl

/-- C3: validating the token produced by `issue(subject, ttl)` at any time
strictly before `now + ttl` returns the subject, and validating it at any time
strictly past `now + ttl` fails with `TokenExpired`. -/
theorem issue_validate_roundtrip (secret : Nat) (subject : String) (ttl now t1 t2 : Nat)
    (h1 : t1 < now + ttl) (h2 : now + ttl < t2) :
    validate secret (issue secret subject ttl now) t1 = .ok subject ∧
    validate secret (issue secret subject ttl now) t2 = .error .tokenExpired := by
  constructor
  · simp [validate, issue]
    omega
  · simp [validate, issue]
    omega

/-- Witness for C3 at concrete values: a token issued at time 100 with ttl 30,
validated at times 115 and 131. -/
theorem issue_validate_roundtrip_witness :
    validate 7 (issue 7 "ana@x.com" 30 100) 115 = .ok "ana@x.com" ∧
    validate 7 (issue 7 "ana@x.com" 30 100) 131 = .error .tokenExpired :=
  issue_validate_roundtrip 7 "ana@x.com" 30 100 115 131 (by decide) (by decide)

/-- C4: `login` fails with 404 "User not found" iff no record with the supplied
email exists, fails with 401 "Invalid password" iff such a record exists but
verifying the supplied password against its stored hash returns false, and
succeeds iff such a record exists and verification returns true. -/
theorem login_failure_characterization (store : List User) (email password : String) :
    (login store email password = .error { status_code := 404, detail := "User not found" } ↔
      findOneByEmail store email = none) ∧
    (login store email password = .error { status_code := 401, detail := "Invalid password" } ↔
      ∃ u, findOneByEmail store email = some u ∧ verify_password password u.password = false) ∧
    ((∃ u, findOneByEmail store email = some u ∧ verify_password password u.password = true) ↔
      ∃ m, login store email password = .ok m) := by
  rcases hf : findOneByEmail store email with _ | u
  · simp [login, hf]
  · rcases hv : verify_password password u.password
    · simp [login, hf, hv]
    · simp [login, hf, hv]

/-- C5: hashing a password and verifying the same plaintext against the digest
always returns true, for every password and every salt. -/
theorem verify_password_roundtrip (p : String) (salt : Nat) :
    verify_password p (hash_password p salt) = true := by
  simp [verify_password, hash_password, bcryptCheckpw, bcryptHashpw]

/-- C6 counterexample: bcrypt derives its key from at most 72 password bytes,
so the 73-character password `"aa...a"` (73 a's) verifies successfully against
the hash of the distinct 72-character password `"aa...a"` (72 a's). -/
theorem verify_password_cross_collision :
    String.mk (List.replicate 73 'a') ≠ String.mk (List.replicate 72 'a') ∧
    verify_password (String.mk (List.replicate 73 'a'))
      (hash_password (String.mk (List.replicate 72 'a')) 0) = true := by
  constructor
  · decide
  · decide

/-- C6 amended: `verify_password p1 (hash_password p2 salt)` returns false
exactly when the first 72 bytes of the UTF-8 encodings of `p1` and `p2` differ;
distinct passwords agreeing on their first 72 encoded bytes verify as equal. -/
theorem verify_password_cross_iff (p1 p2 : String) (salt : Nat) :
    verify_password p1 (hash_password p2 salt) = false ↔
      (utf8Bytes p1).take bcryptKeyLimit ≠ (utf8Bytes p2).take bcryptKeyLimit := by
  simp [verify_password, hash_password, bcryptCheckpw, bcryptHashpw,
    BcryptDigest.mk.injEq]

/-- C7: the hashing step can raise no error: for every well-formed non-empty
password (and any fresh email), `signup` runs `hash_password` and still
succeeds — `hash_password` is total, so the error branch of `signup` is
unreachable from the hashing step. -/
theorem hash_password_never_fails (store : List User) (name email password : String)
    (salt : Nat) (h : findOneByEmail store email = none) (_hp : password ≠ "") :
    ∃ r, (signup store name email password salt).2 = Except.ok r := by
  refine ⟨{ status := "success", message := "User registered successfully!",
            user := { name := name, email := email } }, ?_⟩
  simp [signup, signupTryBody, h]

/-- Witness for C7 at a concrete non-empty password and fresh email. -/
theorem hash_password_never_fails_witness :
    ∃ r, (signup [] "Ana" "ana@x.com" "secret" 0).2 = Except.ok r :=
  hash_password_never_fails [] "Ana" "ana@x.com" "secret" 0 rfl (by decide)

/-- C8: a duplicate-email `signup` (the DuplicateUser failure) leaves the store
unchanged, and a fresh-email `signup` performs exactly one insertion: the store
afterwards is the old store with the single new record appended, so no other
record is created, modified or removed. -/
theorem signup_store_effects (store : List User) (name email password : String) (salt : Nat) :
    ((∃ u, findOneByEmail store email = some u) →
        (signup store name email password salt).1 = store) ∧
    (findOneByEmail store email = none →
        (signup store name email password salt).1 =
          store ++ [{ name := name, email := email, password := hash_password password salt }]) := by
  constructor
  · rintro ⟨u, hu⟩
    simp [signup, signupTryBody, hu]
  · intro h
    simp [signup, signupTryBody, h]

/-- Witness for C8: both branches at concrete stores. -/
theorem signup_store_effects_witness :
    (signup [{ name := "Ana", email := "ana@x.com", password := hash_password "secret" 0 }]
        "Bob" "ana@x.com" "pw" 1).1 =
      [{ name := "Ana", email := "ana@x.com", password := hash_password "secret" 0 }] ∧
    (signup [] "Ana" "ana@x.com" "secret" 0).1 =
      [{ name := "Ana", email := "ana@x.com", password := hash_password "secret" 0 }] :=
  ⟨(signup_store_effects _ "Bob" "ana@x.com" "pw" 1).1 ⟨_, rfl⟩,
   (signup_store_effects [] "Ana" "ana@x.com" "secret" 0).2 rfl⟩

/-- C9: under sequential execution, `signup` preserves the invariant that
emails are unique across all user records: if the store's emails are pairwise
distinct before the call, they are pairwise distinct afterwards. -/
theorem signup_preserves_email_uniqueness (store : List User) (name email password : String)
    (salt : Nat) (h : (store.map User.email).Nodup) :
    (((signup store name email password salt).1).map User.email).Nodup := by
  rcases hf : findOneByEmail store email with _ | u
  · have hmem : email ∉ store.map User.email := by
      intro hmem
      rcases List.mem_map.mp hmem with ⟨u, hu, he⟩
      have hnone := List.find?_eq_none.mp hf u hu
      rw [he] at hnone
      simp at hnone
    have hpost : (signup store name email password salt).1 =
        store ++ [{ name := name, email := email, password := hash_password password salt }] := by
      simp [signup, signupTryBody, hf]
    rw [hpost, List.map_append, List.nodup_append]
    refine ⟨h, by simp, ?_⟩
    intro a ha hb
    simp only [List.map_cons, List.map_nil, List.mem_singleton] at hb
    subst hb
    exact hmem ha
  · have hpost : (signup store name email password salt).1 = store := by
      simp [signup, signupTryBody, hf]
    rw [hpost]
    exact h

/-- Witness for C9: a concrete store with one user and a fresh email. -/
theorem signup_preserves_email_uniqueness_witness :
    ((((signup [{ name := "Ana", email := "ana@x.com", password := hash_password "secret" 0 }]
        "Bob" "bob@x.com" "pw" 1).1)).map User.email).Nodup :=
  signup_preserves_email_uniqueness
    [{ name := "Ana", email := "ana@x.com", password := hash_password "secret" 0 }]
    "Bob" "bob@x.com" "pw" 1 (by decide)

/-- Helper for C10: the filter of `userSearch` depends only on the projected
(name, email) view of the store, so two stores with equal projections produce
equal filtered projections. -/
theorem filter_projectPublic_congr (q : String) (s1 s2 : List User)
    (h : s1.map projectPublic = s2.map projectPublic) :
    (s1.filter (fun u => nameMatches q u.name)).map projectPublic =
      (s2.filter (fun u => nameMatches q u.name)).map projectPublic := by
  have e1 : (s1.filter (fun u => nameMatches q u.name)).map projectPublic =
      (s1.map projectPublic).filter (fun v => nameMatches q v.name) :=
    (List.filter_map (p := fun v : PublicUser => nameMatches q v.name) projectPublic s1).symm
  have e2 : (s2.filter (fun u => nameMatches q u.name)).map projectPublic =
      (s2.map projectPublic).filter (fun v => nameMatches q v.name) :=
    (List.filter_map (p := fun v : PublicUser => nameMatches q v.name) projectPublic s2).symm
  rw [e1, e2, h]

/-- C10: the responses of `get_users` and `userSearch` contain no password
field and no record id (the projection `{"_id": 0, "password": 0}` removes
both), and consequently two stores whose records agree on everything but the
stored password hashes produce identical responses from both endpoints. -/
theorem users_endpoints_password_blind (s1 s2 : List User) (q : String)
    (h : s1.map projectPublic = s2.map projectPublic) :
    ("password" ∉ publicUserKeys ∧ "_id" ∉ publicUserKeys) ∧
    get_users s1 = get_users s2 ∧ userSearch s1 q = userSearch s2 q := by
  refine ⟨by decide, ?_, ?_⟩
  · simp [get_users, h]
  · have key := filter_projectPublic_congr q s1 s2 h
    simp [userSearch, userSearchTryBody, key]

/-- Witness for C10: two one-user stores that differ only in the stored
password hash give identical responses. -/
theorem users_endpoints_password_blind_witness :
    ("password" ∉ publicUserKeys ∧ "_id" ∉ publicUserKeys) ∧
    get_users [{ name := "Ana", email := "ana@x.com", password := hash_password "pw1" 0 }] =
      get_users [{ name := "Ana", email := "ana@x.com", password := hash_password "pw2" 1 }] ∧
    userSearch [{ name := "Ana", email := "ana@x.com", password := hash_password "pw1" 0 }] "an" =
      userSearch [{ name := "Ana", email := "ana@x.com", password := hash_password "pw2" 1 }] "an" :=
  users_endpoints_password_blind
    [{ name := "Ana", email := "ana@x.com", password := hash_password "pw1" 0 }]
    [{ name := "Ana", email := "ana@x.com", password := hash_password "pw2" 1 }] "an" rfl
